import Mathlib

/-!
Shallow embedding of the DartEcommerce data-access layer (`server/storage.ts`)
and its HTTP route handlers (`registerRoutes`).  The persistent store is
modelled as lists of rows; each storage operation is a pure function from a
store to a (result, store) pair, translated statement by statement from the
Drizzle queries in the source.  Timestamps are modelled as `Nat` values passed
in explicitly (`new Date()` becomes a `now` parameter).
-/

/-- A row of the `users` table, following the `users` table declaration in
`shared/schema.ts`: `id` is a non-null primary key and `role` is non-null
(default "buyer"), while `email`, the name parts, the profile image, the
`isApproved` boolean and both timestamps are nullable columns, modelled with
`Option`. -/
structure User where
  id : String
  email : Option String
  firstName : Option String
  lastName : Option String
  profileImageUrl : Option String
  role : String
  isApproved : Option Bool
  createdAt : Option Nat
  updatedAt : Option Nat
deriving DecidableEq

/-- A row of the `products` table, fields as read and written by
`storage.ts` and the client `Product` interface. -/
structure Product where
  id : Nat
  name : String
  description : String
  price : String
  imageUrl : String
  sellerId : String
  categoryId : Nat
  isApproved : Bool
  favoriteCount : Nat
  createdAt : Nat
  updatedAt : Nat
deriving DecidableEq

/-- A row of the `favorites` table: composite key (userId, productId). -/
structure Favorite where
  userId : String
  productId : Nat
deriving DecidableEq

/-- A row of the `cart_items` table. -/
structure CartItem where
  id : Nat
  userId : String
  productId : Nat
  quantity : Nat
deriving DecidableEq

/-- A row of the `seller_applications` table (only the fields the verified
routes touch: id, applicant identity, status). -/
structure SellerApplication where
  id : Nat
  userId : String
  status : String
deriving DecidableEq

/-- The persistent store: one list of rows per table, plus the next values of
the serial id columns. -/
structure Store where
  users : List User
  products : List Product
  favorites : List Favorite
  cartItems : List CartItem
  sellerApplications : List SellerApplication
  nextProductId : Nat
  nextCartItemId : Nat
deriving DecidableEq

/-- The `UpsertUser` payload: `typeof users.$inferInsert` from
`shared/schema.ts`.  Only `id` is required; every other column — including
`createdAt` and `updatedAt` — may be supplied or omitted, and for a nullable
column the payload may also carry an explicit null.  The outer `Option` is
presence in the payload (`none` = omitted); for nullable columns the inner
value is the column value itself (so `some none` is an explicit null). -/
structure UpsertUser where
  id : String
  email : Option (Option String) := none
  firstName : Option (Option String) := none
  lastName : Option (Option String) := none
  profileImageUrl : Option (Option String) := none
  role : Option String := none
  isApproved : Option (Option Bool) := none
  createdAt : Option (Option Nat) := none
  updatedAt : Option (Option Nat) := none
deriving DecidableEq

/-- The `InsertProduct` payload accepted by `createProduct`.  The POST
/products handler always overwrites `sellerId` and `isApproved` by spreading
them after the parsed body, so the body may carry arbitrary values here. -/
structure InsertProduct where
  name : String
  description : String
  price : String
  imageUrl : String
  sellerId : String
  categoryId : Nat
  isApproved : Bool
deriving DecidableEq

/-- The `InsertCartItem` payload of `addToCart`; `quantity = none` models an
omitted quantity. -/
structure InsertCartItem where
  userId : String
  productId : Nat
  quantity : Option Nat := none
deriving DecidableEq

/-- Storage-layer failure: the only one exercised by the verified operations
is a primary-key / uniqueness violation raised by the database on a duplicate
insert. -/
inductive DbError where
  | uniqueViolation
deriving DecidableEq

/-- `getUser(id)`: `select from users where users.id = id`, first row or
absent. -/
def getUser (s : Store) (id : String) : Option User :=
  s.users.find? (fun u => u.id == id)

/-- The `set` clause of `upsertUser`'s `onConflictDoUpdate`: the spread
`{...userData, updatedAt: new Date()}` overwrites exactly the columns carried
by the payload — an explicit null overwrites with null, a supplied
`createdAt` overwrites the creation timestamp — leaves omitted columns at
the row's prior value, and always sets `updatedAt` to the current time (the
`updatedAt` key follows the spread, so a payload `updatedAt` is itself
overwritten). -/
def applyUpsertSet (d : UpsertUser) (now : Nat) (x : User) : User :=
  { id := d.id
    email := d.email.getD x.email
    firstName := d.firstName.getD x.firstName
    lastName := d.lastName.getD x.lastName
    profileImageUrl := d.profileImageUrl.getD x.profileImageUrl
    role := d.role.getD x.role
    isApproved := d.isApproved.getD x.isApproved
    createdAt := d.createdAt.getD x.createdAt
    updatedAt := some now }

/-- `upsertUser(userData)`: insert, or on id conflict update the supplied
columns (see `applyUpsertSet`); returns the resulting row.  On the insert
branch an omitted column takes its `shared/schema.ts` default: role "buyer",
isApproved false, both timestamps `defaultNow()`, the nullable text columns
null. -/
def upsertUser (d : UpsertUser) (now : Nat) (s : Store) : User × Store :=
  match s.users.find? (fun u => u.id == d.id) with
  | some u =>
      (applyUpsertSet d now u,
       { s with users :=
           s.users.map (fun x => if x.id == d.id then applyUpsertSet d now x else x) })
  | none =>
      let u : User :=
        { id := d.id
          email := d.email.getD none
          firstName := d.firstName.getD none
          lastName := d.lastName.getD none
          profileImageUrl := d.profileImageUrl.getD none
          role := d.role.getD "buyer"
          isApproved := d.isApproved.getD (some false)
          createdAt := d.createdAt.getD (some now)
          updatedAt := d.updatedAt.getD (some now) }
      (u, { s with users := s.users ++ [u] })

/-- `ORDER BY products.createdAt DESC`. -/
def byCreatedAtDesc (a b : Product) : Prop := b.createdAt ≤ a.createdAt

instance : DecidableRel byCreatedAtDesc := fun a b => Nat.decLe _ _

instance : IsTotal Product byCreatedAtDesc :=
  ⟨fun a b => Nat.le_total b.createdAt a.createdAt⟩

instance : IsTrans Product byCreatedAtDesc :=
  ⟨fun _ _ _ h1 h2 => Nat.le_trans h2 h1⟩

/-- `ORDER BY products.favoriteCount DESC`. -/
def byFavoriteCountDesc (a b : Product) : Prop := b.favoriteCount ≤ a.favoriteCount

instance : DecidableRel byFavoriteCountDesc := fun a b => Nat.decLe _ _

instance : IsTotal Product byFavoriteCountDesc :=
  ⟨fun a b => Nat.le_total b.favoriteCount a.favoriteCount⟩

instance : IsTrans Product byFavoriteCountDesc :=
  ⟨fun _ _ _ h1 h2 => Nat.le_trans h2 h1⟩

/-- JavaScript truthiness of the optional `categoryId` argument:
`if (categoryId)` is false for both `undefined` and `0`. -/
def natTruthy : Option Nat → Bool
  | none => false
  | some c => c != 0

/-- `getProducts(categoryId?)`: approved products, optionally filtered by
category (guarded by JS truthiness of `categoryId`), ordered by creation time
descending. -/
def getProducts (s : Store) (categoryId : Option Nat := none) : List Product :=
  if natTruthy categoryId then
    List.insertionSort byCreatedAtDesc
      (s.products.filter (fun p => p.isApproved && p.categoryId == categoryId.getD 0))
  else
    List.insertionSort byCreatedAtDesc (s.products.filter (fun p => p.isApproved))

/-- `getProduct(id)`: single row or absent, with no approval filter. -/
def getProduct (s : Store) (i : Nat) : Option Product :=
  s.products.find? (fun p => p.id == i)

/-- `getRecommendedProducts(limit = 4)`: approved products ordered by
`favoriteCount` descending, capped at `limit`. -/
def getRecommendedProducts (s : Store) (limit : Nat := 4) : List Product :=
  (List.insertionSort byFavoriteCountDesc
    (s.products.filter (fun p => p.isApproved))).take limit

/-- `createProduct(product)`: inserts and returns the new row, with the
serial id and the `shared/schema.ts` column defaults (favoriteCount 0,
timestamps `defaultNow()`). -/
def createProduct (d : InsertProduct) (now : Nat) (s : Store) : Product × Store :=
  let p : Product :=
    { id := s.nextProductId
      name := d.name
      description := d.description
      price := d.price
      imageUrl := d.imageUrl
      sellerId := d.sellerId
      categoryId := d.categoryId
      isApproved := d.isApproved
      favoriteCount := 0
      createdAt := now
      updatedAt := now }
  (p, { s with products := s.products ++ [p], nextProductId := s.nextProductId + 1 })

/-- The count query of the favorite-count recompute:
`select from favorites where favorites.productId = productId`, then
`.length`. -/
def favoriteCountFor (favs : List Favorite) (productId : Nat) : Nat :=
  (favs.filter (fun f => f.productId == productId)).length

/-- The update statement of the favorite-count recompute:
`update products set favoriteCount = cnt where products.id = productId`. -/
def setFavoriteCount (ps : List Product) (productId cnt : Nat) : List Product :=
  ps.map (fun p => if p.id == productId then { p with favoriteCount := cnt } else p)

/-- `isProductFavorited(userId, productId)`: existence check on the pair. -/
def isProductFavorited (s : Store) (userId : String) (productId : Nat) : Bool :=
  s.favorites.any (fun f => f.userId == userId && f.productId == productId)

/-- `addToFavorites(favorite)`: inserts the favorite row — the database
rejects a duplicate (userId, productId) pair with a primary-key violation,
leaving the store unchanged — then recomputes and persists `favoriteCount`
on the product as the count of all favorite rows referencing it. -/
def addToFavorites (fav : Favorite) (s : Store) : Except DbError (Favorite × Store) :=
  if isProductFavorited s fav.userId fav.productId then
    .error .uniqueViolation
  else
    let favs' := s.favorites ++ [fav]
    (.ok (fav,
      { s with
          favorites := favs'
          products :=
            setFavoriteCount s.products fav.productId
              (favoriteCountFor favs' fav.productId) }))

/-- `removeFromFavorites(userId, productId)`: deletes the pair (a no-op when
absent) and then recomputes and persists the count identically. -/
def removeFromFavorites (userId : String) (productId : Nat) (s : Store) : Store :=
  let favs' :=
    s.favorites.filter (fun f => !(f.userId == userId && f.productId == productId))
  { s with
      favorites := favs'
      products :=
        setFavoriteCount s.products productId (favoriteCountFor favs' productId) }

/-- JavaScript `||` on an optional numeric value: `undefined` and `0` both
fall back to the default. -/
def jsOr (v : Option Nat) (d : Nat) : Nat :=
  match v with
  | none => d
  | some q => if q == 0 then d else q

/-- `addToCart(cartItem)`: if a row for (userId, productId) exists, set its
quantity to `(existingItem.quantity || 0) + (cartItem.quantity || 1)` and
return the updated row; otherwise insert a new row, an omitted quantity
taking the `shared/schema.ts` column default of 1. -/
def addToCart (d : InsertCartItem) (s : Store) : CartItem × Store :=
  match s.cartItems.find? (fun c => c.userId == d.userId && c.productId == d.productId) with
  | some existing =>
      let q := jsOr (some existing.quantity) 0 + jsOr d.quantity 1
      ({ existing with quantity := q },
       { s with cartItems :=
           s.cartItems.map (fun c => if c.id == existing.id then { c with quantity := q } else c) })
  | none =>
      let item : CartItem :=
        { id := s.nextCartItemId
          userId := d.userId
          productId := d.productId
          quantity := d.quantity.getD 1 }
      (item, { s with cartItems := s.cartItems ++ [item],
                      nextCartItemId := s.nextCartItemId + 1 })

/-- `removeFromCart(id)`: unconditional delete by cart row id. -/
def removeFromCart (i : Nat) (s : Store) : Store :=
  { s with cartItems := s.cartItems.filter (fun c => !(c.id == i)) }

/-- `updateSellerApplicationStatus(id, status)`: sets the status and returns
the updated row, or absent when no row has that id. -/
def updateSellerApplicationStatus (i : Nat) (status : String) (s : Store) :
    Option SellerApplication × Store :=
  let apps' :=
    s.sellerApplications.map (fun a => if a.id == i then { a with status := status } else a)
  (apps'.find? (fun a => a.id == i), { s with sellerApplications := apps' })

/-- The error side of a route response: 401 from the `isAuthenticated`
middleware, 403 from an explicit role check, 500 from a handler's catch-all
block (carrying the handler's generic message). -/
inductive ApiErr where
  | unauthorized
  | forbidden (msg : String)
  | serverError (msg : String)
deriving DecidableEq

/-- The HTTP status code attached to each error response. -/
def ApiErr.statusCode : ApiErr → Nat
  | .unauthorized => 401
  | .forbidden _ => 403
  | .serverError _ => 500

/-- `POST /api/products`: resolve the caller, reject with 403 unless the
caller's row exists with role seller or admin, then create the product with
`sellerId` forced to the session identity and `isApproved` forced to
`user.role === 'admin'`, both spread after the parsed body. -/
def postProductsHandler (callerId : Option String) (body : InsertProduct)
    (now : Nat) (s : Store) : Except ApiErr Product × Store :=
  match callerId with
  | none => (.error .unauthorized, s)
  | some uid =>
      match getUser s uid with
      | none => (.error (.forbidden "Only approved sellers can create products"), s)
      | some user =>
          if user.role == "seller" || user.role == "admin" then
            let r := createProduct
              { body with sellerId := uid, isApproved := user.role == "admin" } now s
            (.ok r.1, r.2)
          else
            (.error (.forbidden "Only approved sellers can create products"), s)

/-- `POST /api/favorites`: any authenticated identity; the catch-all block
maps every storage failure — including the duplicate-pair uniqueness
violation — to the generic 500 response. -/
def postFavoritesHandler (callerId : Option String) (productId : Nat)
    (s : Store) : Except ApiErr Favorite × Store :=
  match callerId with
  | none => (.error .unauthorized, s)
  | some uid =>
      match addToFavorites { userId := uid, productId := productId } s with
      | .ok r => (.ok r.1, r.2)
      | .error _ => (.error (.serverError "Failed to add to favorites"), s)

/-- `DELETE /api/cart/:id`: any authenticated identity; calls
`removeFromCart(id)` directly, with no comparison of the row's owner against
the caller. -/
def deleteCartHandler (callerId : Option String) (i : Nat) (s : Store) :
    Except ApiErr Unit × Store :=
  match callerId with
  | none => (.error .unauthorized, s)
  | some _ => (.ok (), removeFromCart i s)

/-- `PATCH /api/admin/applications/:id`: admin-only; updates the application
status, and when the new status is exactly "approved" additionally upserts
the applicant with role "seller" and isApproved true.  When the application
id matches no row and the status is "approved", reading `application.userId`
throws and the catch-all answers 500. -/
def patchApplicationHandler (callerId : Option String) (appId : Nat)
    (status : String) (now : Nat) (s : Store) :
    Except ApiErr (Option SellerApplication) × Store :=
  match callerId with
  | none => (.error .unauthorized, s)
  | some uid =>
      match getUser s uid with
      | none => (.error (.forbidden "Admin access required"), s)
      | some user =>
          if user.role == "admin" then
            let r := updateSellerApplicationStatus appId status s
            if status == "approved" then
              match r.1 with
              | none => (.error (.serverError "Failed to update application"), r.2)
              | some app =>
                  let r2 := upsertUser
                    { id := app.userId, role := some "seller", isApproved := some (some true) }
                    now r.2
                  (.ok (some app), r2.2)
            else
              (.ok r.1, r.2)
          else
            (.error (.forbidden "Admin access required"), s)

/-! ## Helper lemmas -/

/-- A `find?` over an update-where-matching map (`update ... where id = k`
followed by `returning`): the first matching row of the updated list is the
updated version of the first matching row of the original list, provided the
update keeps the row matching. -/
theorem find?_map_guard {α : Type} (test : α → Bool) (f : α → α)
    (hf : ∀ a, test a = true → test (f a) = true) :
    ∀ l : List α,
      (l.map (fun a => if test a then f a else a)).find? test = (l.find? test).map f
  | [] => rfl
  | a :: l => by
    by_cases h : test a = true
    · rw [List.map_cons, if_pos h, List.find?_cons_of_pos _ (hf a h),
        List.find?_cons_of_pos _ h, Option.map_some']
    · rw [List.map_cons, if_neg h, List.find?_cons_of_neg _ (by simpa using h),
        List.find?_cons_of_neg _ (by simpa using h)]
      exact find?_map_guard test f hf l

/-- Appending a favorite for a different product leaves the per-product
count of any other product unchanged. -/
theorem favoriteCountFor_append_other (favs : List Favorite) (fav : Favorite)
    (i : Nat) (h : fav.productId ≠ i) :
    favoriteCountFor (favs ++ [fav]) i = favoriteCountFor favs i := by
  unfold favoriteCountFor
  rw [List.filter_append]
  have hb : (fav.productId == i) = false := beq_eq_false_iff_ne.mpr h
  simp [List.filter_singleton, hb]

/-- Deleting the favorites of one (user, product) pair leaves the count of
any other product unchanged. -/
theorem favoriteCountFor_removePair (favs : List Favorite) (u : String)
    (pid i : Nat) (h : pid ≠ i) :
    favoriteCountFor
        (favs.filter (fun f => !(f.userId == u && f.productId == pid))) i
      = favoriteCountFor favs i := by
  unfold favoriteCountFor
  rw [List.filter_filter]
  refine congrArg List.length (List.filter_congr ?_)
  intro f _
  by_cases hfi : f.productId = i
  · rw [hfi]
    simp [beq_eq_false_iff_ne.mpr (Ne.symm h)]
  · simp [beq_eq_false_iff_ne.mpr hfi]

/-! ## C1: favorite counts -/

/-- The favorite-count invariant: every product row carries the number of
favorite rows that reference it. -/
def favCountInv (s : Store) : Prop :=
  ∀ p ∈ s.products, p.favoriteCount = favoriteCountFor s.favorites p.id

instance (s : Store) : Decidable (favCountInv s) :=
  List.decidableBAll _ s.products

/-- One favorites operation, as invoked by the routes: a failing duplicate
add leaves the store unchanged (the insert throws before the recount). -/
inductive FavOp where
  | add (userId : String) (productId : Nat)
  | remove (userId : String) (productId : Nat)
deriving DecidableEq

def applyFavOp (s : Store) : FavOp → Store
  | .add u pid =>
      match addToFavorites { userId := u, productId := pid } s with
      | .ok r => r.2
      | .error _ => s
  | .remove u pid => removeFromFavorites u pid s

def applyFavOps (s : Store) (ops : List FavOp) : Store :=
  ops.foldl applyFavOp s


/-- Case analysis for a row of the products table after the favorite-count
update statement: either the row was targeted (its id matches) and now
carries the recomputed count, or it is an untouched row of the original
table. -/
theorem mem_setFavoriteCount {pid cnt : Nat} {p' : Product} :
    ∀ {ps : List Product}, p' ∈ setFavoriteCount ps pid cnt →
      (p'.id = pid ∧ p'.favoriteCount = cnt) ∨ (p'.id ≠ pid ∧ p' ∈ ps)
  | [], h => absurd h (List.not_mem_nil _)
  | p :: ps, h => by
    simp only [setFavoriteCount, List.map_cons, List.mem_cons] at h
    cases h with
    | inl he =>
      by_cases hid : p.id = pid
      · rw [if_pos (beq_iff_eq.mpr hid)] at he
        exact Or.inl (by rw [he]; exact ⟨hid, rfl⟩)
      · rw [if_neg (by simp [hid])] at he
        exact Or.inr ⟨by rw [he]; exact hid, by rw [he]; exact List.mem_cons_self _ _⟩
    | inr hmem =>
      rcases mem_setFavoriteCount hmem with h1 | h2
      · exact Or.inl h1
      · exact Or.inr ⟨h2.1, List.mem_cons_of_mem _ h2.2⟩

theorem favCountInv_applyFavOp (s : Store) (op : FavOp) (h : favCountInv s) :
    favCountInv (applyFavOp s op) := by
  cases op with
  | add u pid =>
      by_cases hdup : isProductFavorited s u pid
      · have hs : applyFavOp s (.add u pid) = s := by
          simp [applyFavOp, addToFavorites, hdup]
        rw [hs]; exact h
      · have hs : applyFavOp s (.add u pid) =
            { s with
                favorites := s.favorites ++ [{ userId := u, productId := pid }]
                products :=
                  setFavoriteCount s.products pid
                    (favoriteCountFor
                      (s.favorites ++ [{ userId := u, productId := pid }]) pid) } := by
          simp [applyFavOp, addToFavorites, hdup]
        rw [hs]
        intro p' hp'
        rcases mem_setFavoriteCount hp' with ⟨hid, hcnt⟩ | ⟨hid, hmem⟩
        · rw [hcnt, hid]
        · show p'.favoriteCount =
            favoriteCountFor (s.favorites ++ [{ userId := u, productId := pid }]) p'.id
          rw [favoriteCountFor_append_other _ _ _ (Ne.symm hid)]
          exact h p' hmem
  | remove u pid =>
      intro p' hp'
      have hp2 : p' ∈ setFavoriteCount s.products pid
          (favoriteCountFor
            (s.favorites.filter (fun f => !(f.userId == u && f.productId == pid))) pid) := hp'
      rcases mem_setFavoriteCount hp2 with ⟨hid, hcnt⟩ | ⟨hid, hmem⟩
      · show p'.favoriteCount =
          favoriteCountFor
            (s.favorites.filter (fun f => !(f.userId == u && f.productId == pid))) p'.id
        rw [hcnt, hid]
      · show p'.favoriteCount =
          favoriteCountFor
            (s.favorites.filter (fun f => !(f.userId == u && f.productId == pid))) p'.id
        rw [favoriteCountFor_removePair _ _ _ _ (Ne.symm hid)]
        exact h p' hmem

theorem favCountInv_applyFavOps (ops : List FavOp) :
    ∀ s : Store, favCountInv s → favCountInv (applyFavOps s ops) := by
  induction ops with
  | nil => exact fun _ h => h
  | cons op rest ih => exact fun s h => ih _ (favCountInv_applyFavOp s op h)

/-- C1: starting from any store whose product rows carry correct favorite
counts, every non-interleaved sequence of addToFavorites / removeFromFavorites
operations (failed duplicate adds included) again leaves every product row's
`favoriteCount` equal to the number of favorite rows referencing it; moreover
`removeFromFavorites` recomputes and persists the count for its product even
when the deleted pair was absent. -/
theorem favoriteCount_matches_favorite_rows (s : Store) (ops : List FavOp)
    (h : favCountInv s) :
    favCountInv (applyFavOps s ops) ∧
    ∀ u pid p, p ∈ (removeFromFavorites u pid s).products → p.id = pid →
      p.favoriteCount = favoriteCountFor (removeFromFavorites u pid s).favorites pid := by
  refine ⟨favCountInv_applyFavOps ops s h, ?_⟩
  intro u pid p hp hid
  have hp2 : p ∈ setFavoriteCount s.products pid
      (favoriteCountFor
        (s.favorites.filter (fun f => !(f.userId == u && f.productId == pid))) pid) := hp
  rcases mem_setFavoriteCount hp2 with ⟨_, hcnt⟩ | ⟨hne, _⟩
  · exact hcnt
  · exact absurd hid hne

/-! ## C2: cart merge on duplicate add -/

theorem jsOr_some_zero (q : Nat) : jsOr (some q) 0 = q := by
  cases q <;> simp [jsOr]

theorem jsOr_some_of_pos {q : Nat} (h : 1 ≤ q) : jsOr (some q) 1 = q := by
  cases q with
  | zero => exact absurd h (by decide)
  | succ n => simp [jsOr]

/-- Rows that do not belong to the (userId, productId) pair still do not
belong to it after the quantity-update statement. -/
theorem filter_pair_map_update (l : List CartItem) (u : String) (pid nid q : Nat)
    (hfree : ∀ c ∈ l, ¬(c.userId = u ∧ c.productId = pid)) :
    (l.map (fun c => if c.id == nid then { c with quantity := q } else c)).filter
      (fun c => c.userId == u && c.productId == pid) = [] := by
  rw [List.filter_eq_nil_iff]
  intro a ha
  obtain ⟨c, hc, rfl⟩ := List.mem_map.mp ha
  by_cases hcid : c.id = nid
  · rw [if_pos (beq_iff_eq.mpr hcid)]
    intro hpc
    simp only [Bool.and_eq_true, beq_iff_eq] at hpc
    exact hfree c hc hpc
  · rw [if_neg (by simp [hcid])]
    intro hpc
    simp only [Bool.and_eq_true, beq_iff_eq] at hpc
    exact hfree c hc hpc

/-- C2: for a pair not yet in the cart, two addToCart calls with quantities
q1 and q2 (both at least 1) leave exactly one cart row for the pair, holding
quantity q1 + q2 — the second call increments the existing row instead of
inserting a duplicate — and an omitted quantity behaves exactly like
quantity 1. -/
theorem addToCart_merges_duplicate_pairs (s : Store) (u : String) (pid q1 q2 : Nat)
    (hfree : ∀ c ∈ s.cartItems, ¬(c.userId = u ∧ c.productId = pid))
    (hq1 : 1 ≤ q1) (hq2 : 1 ≤ q2) :
    (((addToCart { userId := u, productId := pid, quantity := some q2 }
        (addToCart { userId := u, productId := pid, quantity := some q1 } s).2).2.cartItems.filter
          (fun c => c.userId == u && c.productId == pid)).map
        (fun c => c.quantity)) = [q1 + q2] ∧
    ∀ t : Store, addToCart { userId := u, productId := pid, quantity := none } t
        = addToCart { userId := u, productId := pid, quantity := some 1 } t := by
  have hfind : s.cartItems.find? (fun c => c.userId == u && c.productId == pid) = none := by
    refine List.find?_eq_none.mpr ?_
    intro c hc hpc
    simp only [Bool.and_eq_true, beq_iff_eq] at hpc
    exact hfree c hc hpc
  have h1 : addToCart { userId := u, productId := pid, quantity := some q1 } s =
      (({ id := s.nextCartItemId, userId := u, productId := pid, quantity := q1 } : CartItem),
       { s with
           cartItems := s.cartItems ++
             [({ id := s.nextCartItemId, userId := u, productId := pid, quantity := q1 } : CartItem)]
           nextCartItemId := s.nextCartItemId + 1 }) := by
    simp [addToCart, hfind]
  have hfind2 : (s.cartItems ++
      [({ id := s.nextCartItemId, userId := u, productId := pid, quantity := q1 } : CartItem)]).find?
        (fun c => c.userId == u && c.productId == pid)
      = some ({ id := s.nextCartItemId, userId := u, productId := pid, quantity := q1 } : CartItem) := by
    rw [List.find?_append, hfind, Option.none_or]
    exact List.find?_cons_of_pos _ (by simp)
  constructor
  · rw [h1]
    have h2 : addToCart { userId := u, productId := pid, quantity := some q2 }
        { s with
            cartItems := s.cartItems ++
              [({ id := s.nextCartItemId, userId := u, productId := pid, quantity := q1 } : CartItem)]
            nextCartItemId := s.nextCartItemId + 1 } =
        (({ id := s.nextCartItemId, userId := u, productId := pid, quantity := q1 + q2 } : CartItem),
         { s with
             cartItems := (s.cartItems ++
               [({ id := s.nextCartItemId, userId := u, productId := pid, quantity := q1 } : CartItem)]).map
                 (fun c => if c.id == s.nextCartItemId then { c with quantity := q1 + q2 } else c)
             nextCartItemId := s.nextCartItemId + 1 }) := by
      simp only [addToCart, hfind2]
      rw [jsOr_some_zero, jsOr_some_of_pos hq2]
    rw [h2, List.map_append, List.filter_append,
      filter_pair_map_update s.cartItems u pid s.nextCartItemId (q1 + q2) hfree]
    simp
  · intro t
    simp only [addToCart]
    cases t.cartItems.find? (fun c => c.userId == u && c.productId == pid) <;> simp [jsOr]

def emptyStore : Store :=
  { users := [], products := [], favorites := [], cartItems := [],
    sellerApplications := [], nextProductId := 1, nextCartItemId := 1 }

theorem addToCart_merges_duplicate_pairs_witness :
    (((addToCart { userId := "u", productId := 1, quantity := some 2 }
        (addToCart { userId := "u", productId := 1, quantity := some 3 } emptyStore).2).2.cartItems.filter
          (fun c => c.userId == "u" && c.productId == 1)).map
        (fun c => c.quantity)) = [3 + 2] :=
  (addToCart_merges_duplicate_pairs emptyStore "u" 1 3 2 (by decide) (by decide) (by decide)).1

/-! ## C4: upsertUser partial merge -/

theorem upsertUser_of_found (s : Store) (d : UpsertUser) (now : Nat) (u : User)
    (h : getUser s d.id = some u) :
    (upsertUser d now s).1 = applyUpsertSet d now u ∧
    getUser (upsertUser d now s).2 d.id = some (applyUpsertSet d now u) := by
  have hfind : s.users.find? (fun x => x.id == d.id) = some u := h
  constructor
  · simp only [upsertUser, hfind]
  · simp only [upsertUser, hfind, getUser]
    rw [find?_map_guard (fun x => x.id == d.id) (applyUpsertSet d now)
        (fun a _ => by simp [applyUpsertSet]) s.users, hfind, Option.map_some']

/-- C4: for an existing user row, `upsertUser` overwrites exactly the columns
carried by the payload (an explicit null overwrites with null, a supplied
createdAt overwrites the creation timestamp) plus the update timestamp, and
leaves every column omitted from the payload at its prior value; in
particular the approval-path payload carrying only id, role and isApproved
preserves email, both name parts, the profile image and createdAt. -/
theorem upsertUser_partial_merge (s : Store) (d : UpsertUser) (now : Nat) (u : User)
    (h : getUser s d.id = some u) :
    ∃ u', (upsertUser d now s).1 = u'
      ∧ getUser (upsertUser d now s).2 d.id = some u'
      ∧ u'.id = d.id
      ∧ u'.email = d.email.getD u.email
      ∧ u'.firstName = d.firstName.getD u.firstName
      ∧ u'.lastName = d.lastName.getD u.lastName
      ∧ u'.profileImageUrl = d.profileImageUrl.getD u.profileImageUrl
      ∧ u'.role = d.role.getD u.role
      ∧ u'.isApproved = d.isApproved.getD u.isApproved
      ∧ u'.createdAt = d.createdAt.getD u.createdAt
      ∧ u'.updatedAt = some now
      ∧ (d.email = some none → u'.email = none)
      ∧ (∀ t, d.createdAt = some t → u'.createdAt = t)
      ∧ ((d.email = none ∧ d.firstName = none ∧ d.lastName = none ∧
            d.profileImageUrl = none ∧ d.createdAt = none) →
          u'.email = u.email ∧ u'.firstName = u.firstName ∧
          u'.lastName = u.lastName ∧ u'.profileImageUrl = u.profileImageUrl ∧
          u'.createdAt = u.createdAt) := by
  obtain ⟨h1, h2⟩ := upsertUser_of_found s d now u h
  refine ⟨applyUpsertSet d now u, h1, h2, rfl, rfl, rfl, rfl, rfl, rfl, rfl, rfl, rfl,
    ?_, ?_, ?_⟩
  · intro he
    simp [applyUpsertSet, he]
  · intro t ht
    simp [applyUpsertSet, ht]
  · rintro ⟨he, hf, hl, hp, hc⟩
    refine ⟨?_, ?_, ?_, ?_, ?_⟩ <;> simp [applyUpsertSet, he, hf, hl, hp, hc]

def c4user : User :=
  { id := "alice", email := some "alice@example.com", firstName := some "Alice",
    lastName := some "Liddell", profileImageUrl := some "pic.png",
    role := "buyer", isApproved := some false, createdAt := some 3, updatedAt := some 3 }

def c4store : Store := { emptyStore with users := [c4user] }

theorem upsertUser_partial_merge_witness :
    ∃ u', getUser
        (upsertUser { id := "alice", role := some "seller", isApproved := some (some true) }
          7 c4store).2 "alice" = some u'
      ∧ u'.email = some "alice@example.com" ∧ u'.role = "seller"
      ∧ u'.createdAt = some 3 := by
  obtain ⟨u', _, h2, _, he, _, _, _, hrole, _, hcr, _, _, _, _⟩ :=
    upsertUser_partial_merge c4store
      { id := "alice", role := some "seller", isApproved := some (some true) } 7 c4user
      (by decide)
  exact ⟨u', h2, by simpa [c4user] using he, by simpa [c4user] using hrole,
    by simpa [c4user] using hcr⟩

/-! ## C3: seller-application approval -/

/-- C3: under an admin caller, when the application row exists and the
applicant has a user row, setting the status to "approved" upgrades the
applicant's user row to role "seller" and isApproved true (leaving the other
profile fields at their prior values), while setting any other status leaves
the users table entirely unchanged. -/
theorem sellerApproval_updates_user_role (s : Store) (uid : String) (caller : User)
    (appId : Nat) (status : String) (now : Nat) (app : SellerApplication) (appUser : User)
    (hadm : getUser s uid = some caller) (hrole : caller.role = "admin")
    (happ : s.sellerApplications.find? (fun a => a.id == appId) = some app)
    (hU : getUser s app.userId = some appUser) :
    (status = "approved" →
      ∃ u', getUser (patchApplicationHandler (some uid) appId status now s).2 app.userId
          = some u'
        ∧ u'.role = "seller" ∧ u'.isApproved = some true
        ∧ u'.email = appUser.email ∧ u'.firstName = appUser.firstName
        ∧ u'.lastName = appUser.lastName ∧ u'.profileImageUrl = appUser.profileImageUrl) ∧
    (status ≠ "approved" →
      (patchApplicationHandler (some uid) appId status now s).2.users = s.users) := by
  have hb : (caller.role == "admin") = true := beq_iff_eq.mpr hrole
  have hupd : (s.sellerApplications.map
      (fun a => if a.id == appId then { a with status := status } else a)).find?
        (fun a => a.id == appId) = some { app with status := status } := by
    rw [find?_map_guard (fun a => a.id == appId)
      (fun a => { a with status := status }) (fun a ha => ha) s.sellerApplications,
      happ, Option.map_some']
  constructor
  · intro hst
    have hok : (status == "approved") = true := beq_iff_eq.mpr hst
    have hrun : patchApplicationHandler (some uid) appId status now s
        = (.ok (some { app with status := status }),
           (upsertUser { id := app.userId, role := some "seller", isApproved := some (some true) }
             now
             { s with sellerApplications :=
                 (s.sellerApplications.map
                   (fun a => if a.id == appId then { a with status := status } else a)) }).2) := by
      simp only [patchApplicationHandler, hadm, hb, if_true,
        updateSellerApplicationStatus, hok, hupd]
    rw [hrun]
    have hU2 : getUser
        { s with sellerApplications :=
            (s.sellerApplications.map
              (fun a => if a.id == appId then { a with status := status } else a)) }
        app.userId = some appUser := hU
    obtain ⟨_, h2⟩ := upsertUser_of_found _
      { id := app.userId, role := some "seller", isApproved := some (some true) } now appUser hU2
    exact ⟨_, h2, rfl, rfl, rfl, rfl, rfl, rfl⟩
  · intro hne
    have hno : (status == "approved") = false := beq_eq_false_iff_ne.mpr hne
    simp only [patchApplicationHandler, hadm, hb, if_true,
      updateSellerApplicationStatus, hno, Bool.false_eq_true, if_false]

def c3admin : User :=
  { id := "adm", email := none, firstName := none, lastName := none,
    profileImageUrl := none, role := "admin", isApproved := some true,
    createdAt := some 0, updatedAt := some 0 }

def c3bob : User :=
  { id := "bob", email := some "bob@example.com", firstName := some "Bob",
    lastName := none, profileImageUrl := none, role := "buyer",
    isApproved := some false, createdAt := some 0, updatedAt := some 0 }

def c3app : SellerApplication := { id := 5, userId := "bob", status := "pending" }

def c3store : Store :=
  { emptyStore with users := [c3admin, c3bob], sellerApplications := [c3app] }

theorem sellerApproval_updates_user_role_witness :
    ∃ u', getUser (patchApplicationHandler (some "adm") 5 "approved" 9 c3store).2 "bob"
        = some u'
      ∧ u'.role = "seller" ∧ u'.isApproved = some true ∧ u'.email = some "bob@example.com" := by
  obtain ⟨u', h1, h2, h3, h4, _⟩ :=
    (sellerApproval_updates_user_role c3store "adm" c3admin 5 "approved" 9 c3app c3bob
      (by decide) rfl (by decide) (by decide)).1 rfl
  exact ⟨u', h1, h2, h3, by simpa [c3bob] using h4⟩

/-! ## C5 and C9: POST /products -/

/-- C5: when the caller's user row is absent, or present with a role that is
neither "seller" nor "admin", POST /products answers Forbidden and the store
is returned unchanged — no product row is created. -/
theorem postProducts_rejects_non_sellers (s : Store) (uid : String)
    (body : InsertProduct) (now : Nat)
    (h : getUser s uid = none ∨
      ∃ user, getUser s uid = some user ∧ user.role ≠ "seller" ∧ user.role ≠ "admin") :
    postProductsHandler (some uid) body now s
      = (.error (.forbidden "Only approved sellers can create products"), s) := by
  rcases h with hnone | ⟨user, hu, hs', ha⟩
  · simp [postProductsHandler, hnone]
  · have h1 : (user.role == "seller") = false := beq_eq_false_iff_ne.mpr hs'
    have h2 : (user.role == "admin") = false := beq_eq_false_iff_ne.mpr ha
    simp [postProductsHandler, hu, h1, h2]

def c5buyer : User :=
  { id := "carol", email := none, firstName := none, lastName := none,
    profileImageUrl := none, role := "buyer", isApproved := some false,
    createdAt := some 0, updatedAt := some 0 }

def c5store : Store := { emptyStore with users := [c5buyer] }

def c5body : InsertProduct :=
  { name := "Lamp", description := "A lamp", price := "20.00", imageUrl := "lamp.png",
    sellerId := "carol", categoryId := 2, isApproved := true }

theorem postProducts_rejects_non_sellers_witness :
    postProductsHandler (some "carol") c5body 3 c5store
      = (.error (.forbidden "Only approved sellers can create products"), c5store) :=
  postProducts_rejects_non_sellers c5store "carol" c5body 3
    (Or.inr ⟨c5buyer, by decide, by decide, by decide⟩)

/-- C9: for a permitted caller (role seller or admin), POST /products appends
exactly one product row whose sellerId is the session identity and whose
isApproved flag is true exactly when the caller is an admin — both regardless
of the sellerId / isApproved values carried by the request body, while the
body's other fields are used as given. -/
theorem postProducts_forces_seller_and_approval (s : Store) (uid : String) (user : User)
    (body : InsertProduct) (now : Nat)
    (hu : getUser s uid = some user)
    (hrole : user.role = "seller" ∨ user.role = "admin") :
    ∃ p, postProductsHandler (some uid) body now s
        = (.ok p, { s with products := s.products ++ [p],
                           nextProductId := s.nextProductId + 1 })
      ∧ p.sellerId = uid
      ∧ p.isApproved = (user.role == "admin")
      ∧ (user.role = "admin" → p.isApproved = true)
      ∧ (user.role = "seller" → p.isApproved = false)
      ∧ p.name = body.name ∧ p.price = body.price ∧ p.categoryId = body.categoryId := by
  have hcond : (user.role == "seller" || user.role == "admin") = true := by
    rcases hrole with h | h <;> rw [h] <;> decide
  refine ⟨{ id := s.nextProductId, name := body.name, description := body.description,
            price := body.price, imageUrl := body.imageUrl, sellerId := uid,
            categoryId := body.categoryId, isApproved := (user.role == "admin"),
            favoriteCount := 0, createdAt := now, updatedAt := now },
          ?_, rfl, rfl, ?_, ?_, rfl, rfl, rfl⟩
  · simp [postProductsHandler, hu, hcond, createProduct]
  · intro h; rw [h]; simp
  · intro h; rw [h]; simp

def c9seller : User :=
  { id := "sel", email := none, firstName := none, lastName := none,
    profileImageUrl := none, role := "seller", isApproved := some true,
    createdAt := some 0, updatedAt := some 0 }

def c9store : Store := { emptyStore with users := [c9seller] }

def c9body : InsertProduct :=
  { name := "Vase", description := "A vase", price := "15.00", imageUrl := "vase.png",
    sellerId := "attacker", categoryId := 2, isApproved := true }

theorem postProducts_forces_seller_and_approval_witness :
    ∃ p, postProductsHandler (some "sel") c9body 4 c9store
        = (.ok p, { c9store with products := c9store.products ++ [p],
                                 nextProductId := c9store.nextProductId + 1 })
      ∧ p.sellerId = "sel" ∧ p.isApproved = false := by
  obtain ⟨p, h1, h2, _, _, h5, _⟩ :=
    postProducts_forces_seller_and_approval c9store "sel" c9seller c9body 4
      (by decide) (Or.inl rfl)
  exact ⟨p, h1, h2, h5 rfl⟩

/-! ## Concrete rows shared by the remaining examples -/

def mkProduct (i : Nat) (approved : Bool) (fav created : Nat) : Product :=
  { id := i, name := "item", description := "desc", price := "10.00",
    imageUrl := "img.png", sellerId := "seller1", categoryId := 1,
    isApproved := approved, favoriteCount := fav,
    createdAt := created, updatedAt := created }

def favStore : Store := { emptyStore with products := [mkProduct 1 true 0 5] }

theorem favoriteCount_matches_favorite_rows_witness :
    favCountInv (applyFavOps favStore
      [FavOp.add "u" 1, FavOp.add "u" 1, FavOp.remove "v" 1, FavOp.remove "u" 1]) :=
  (favoriteCount_matches_favorite_rows favStore
    [FavOp.add "u" 1, FavOp.add "u" 1, FavOp.remove "v" 1, FavOp.remove "u" 1]
    (by decide)).1

instance {e a : Type} [DecidableEq e] [DecidableEq a] : DecidableEq (Except e a) := fun x y =>
  match x, y with
  | .ok v, .ok w =>
      if h : v = w then isTrue (by rw [h]) else isFalse (by intro he; cases he; exact h rfl)
  | .error v, .error w =>
      if h : v = w then isTrue (by rw [h]) else isFalse (by intro he; cases he; exact h rfl)
  | .ok _, .error _ => isFalse (by intro h; cases h)
  | .error _, .ok _ => isFalse (by intro h; cases h)

/-! ## C6: DELETE /cart/:id performs no ownership check -/

def c6store : Store :=
  { emptyStore with
      cartItems := [{ id := 1, userId := "alice", productId := 7, quantity := 2 }] }

/-- C6 counterexample: the only cart row (id 1) is owned by "alice", yet a
request by the distinct authenticated caller "bob" deletes it — the handler
does not leave another user's row unchanged, refuting the claimed ownership
check. -/
theorem cart_delete_ignores_ownership_counterexample :
    (∀ c ∈ c6store.cartItems, c.userId = "alice")
    ∧ "bob" ≠ "alice"
    ∧ deleteCartHandler (some "bob") 1 c6store
        = (.ok (), { c6store with cartItems := [] }) := by
  refine ⟨by decide, by decide, by decide⟩

/-- C6 amended: for any authenticated caller, DELETE /cart/:id succeeds and
unconditionally removes every cart row with the given id — whoever owns it —
keeping all other rows; no ownership comparison is performed. -/
theorem cart_delete_is_unconditional (uid : String) (i : Nat) (s : Store) :
    deleteCartHandler (some uid) i s
      = (.ok (), { s with cartItems := s.cartItems.filter (fun c => !(c.id == i)) }) :=
  rfl

/-! ## C7: duplicate favorite surfaces as a generic error -/

def c7store : Store :=
  { emptyStore with
      products := [mkProduct 1 true 1 5]
      favorites := [{ userId := "u1", productId := 1 }] }

/-- C7 counterexample: with the pair ("u1", 1) already favorited, the second
POST /favorites fails — but the response surfaced to the caller is the
route's generic catch-all 500 ("Failed to add to favorites"), not a distinct
conflict response (status 409), refuting the claim as stated. -/
theorem duplicate_favorite_counterexample :
    postFavoritesHandler (some "u1") 1 c7store
      = (.error (.serverError "Failed to add to favorites"), c7store)
    ∧ (ApiErr.serverError "Failed to add to favorites").statusCode = 500
    ∧ (ApiErr.serverError "Failed to add to favorites").statusCode ≠ 409 := by
  refine ⟨by decide, rfl, by decide⟩

/-- C7 amended: a second addToFavorites for an already-present pair does fail
with a uniqueness violation at the storage layer, but the POST /favorites
route surfaces it as the same generic 500 server error used for any
unexpected failure, not as a distinct ConflictError; the store is unchanged. -/
theorem duplicate_favorite_surfaces_generic_error (s : Store) (uid : String) (pid : Nat)
    (h : isProductFavorited s uid pid = true) :
    addToFavorites { userId := uid, productId := pid } s = .error .uniqueViolation
    ∧ postFavoritesHandler (some uid) pid s
        = (.error (.serverError "Failed to add to favorites"), s) := by
  have h1 : addToFavorites { userId := uid, productId := pid } s
      = .error .uniqueViolation := by
    simp [addToFavorites, h]
  exact ⟨h1, by simp [postFavoritesHandler, h1]⟩

theorem duplicate_favorite_surfaces_generic_error_witness :
    addToFavorites { userId := "u1", productId := 1 } c7store = .error .uniqueViolation
    ∧ postFavoritesHandler (some "u1") 1 c7store
        = (.error (.serverError "Failed to add to favorites"), c7store) :=
  duplicate_favorite_surfaces_generic_error c7store "u1" 1 (by decide)

/-! ## C8: getProducts vs getProduct visibility -/

/-- C8: `getProducts()` returns exactly the approved products (never an
unapproved one), ordered by creation time descending, while `getProduct(id)`
returns a row for id whenever one exists — with no approval filter — and is
absent exactly when no row has that id. -/
theorem getProducts_approved_getProduct_any (s : Store) (i : Nat) :
    (∀ p ∈ getProducts s none, p.isApproved = true)
    ∧ List.Sorted byCreatedAtDesc (getProducts s none)
    ∧ (∀ p, p ∈ getProducts s none ↔ p ∈ s.products ∧ p.isApproved = true)
    ∧ (∀ p, getProduct s i = some p → p ∈ s.products ∧ p.id = i)
    ∧ (getProduct s i = none ↔ ∀ p ∈ s.products, p.id ≠ i) := by
  have hgp : getProducts s none
      = List.insertionSort byCreatedAtDesc (s.products.filter (fun p => p.isApproved)) := rfl
  have hmem : ∀ p : Product, p ∈ getProducts s none ↔ p ∈ s.products ∧ p.isApproved = true := by
    intro p
    rw [hgp, List.mem_insertionSort, List.mem_filter]
  refine ⟨fun p hp => ((hmem p).mp hp).2, ?_, hmem, ?_, ?_⟩
  · rw [hgp]
    exact List.sorted_insertionSort byCreatedAtDesc _
  · intro p hp
    have hp' : s.products.find? (fun q => q.id == i) = some p := hp
    have hb := List.find?_some hp'
    exact ⟨List.mem_of_find?_eq_some hp', beq_iff_eq.mp hb⟩
  · rw [getProduct, List.find?_eq_none]
    constructor
    · intro h p hp he
      exact h p hp (beq_iff_eq.mpr he)
    · intro h p hp hbe
      exact h p hp (beq_iff_eq.mp hbe)

def c8store : Store := { emptyStore with products := [mkProduct 3 false 0 1] }

theorem getProducts_approved_getProduct_any_witness :
    mkProduct 3 false 0 1 ∈ c8store.products ∧ (mkProduct 3 false 0 1).id = 3 :=
  (getProducts_approved_getProduct_any c8store 3).2.2.2.1 (mkProduct 3 false 0 1) (by decide)

/-! ## C10: recommended products -/

def c10store : Store :=
  { emptyStore with
      products := [mkProduct 1 true 3 1, mkProduct 2 true 5 2, mkProduct 3 true 1 3] }

/-- C10: `getRecommendedProducts` returns only approved products, ordered by
favoriteCount descending and capped at the limit, with the limit defaulting
to 4; on approved products with favorite counts 5, 3 and 1 and limit 2 it
returns exactly the two highest counts in descending order. -/
theorem getRecommended_top_by_favorites (s : Store) (limit : Nat) :
    (∀ p ∈ getRecommendedProducts s limit, p.isApproved = true)
    ∧ List.Sorted byFavoriteCountDesc (getRecommendedProducts s limit)
    ∧ (getRecommendedProducts s limit).length ≤ limit
    ∧ getRecommendedProducts s = getRecommendedProducts s 4
    ∧ (getRecommendedProducts c10store 2).map (fun p => p.favoriteCount) = [5, 3] := by
  refine ⟨?_, ?_, ?_, rfl, by decide⟩
  · intro p hp
    have hp2 := (List.take_sublist _ _).subset hp
    rw [List.mem_insertionSort, List.mem_filter] at hp2
    exact hp2.2
  · exact List.Pairwise.sublist (List.take_sublist _ _)
      (List.sorted_insertionSort byFavoriteCountDesc _)
  · exact List.length_take_le _ _

theorem getRecommended_top_by_favorites_witness :
    (mkProduct 2 true 5 2).isApproved = true :=
  (getRecommended_top_by_favorites c10store 2).1 (mkProduct 2 true 5 2) (by decide)
